import Mathlib

/-!
Shallow embedding of the shader-program construction and validation
component of the learngl repository: `src/shader.rs`, `src/utils.rs` and
`src/errors.rs`.

Modelling conventions:
* Rust byte strings (`Vec<u8>`, the bytes behind `CString`) are `List Nat`;
  driver diagnostic logs are likewise byte lists.
* The OpenGL driver is an oracle (`Driver`): it decides what `fs::read`
  returns, what the status queries (`GetShaderiv` / `GetProgramiv`) report,
  what bytes and length the info-log queries produce, and what
  `GetUniformLocation` answers.
* The GL context is explicit state (`GLState`): a counter handing out fresh
  object names, the set of shader objects created and not yet deleted, and a
  chronological trace of every driver call issued.  "No driver call is
  issued" is then "the state is returned unchanged".
* `Path` is modelled as `FsPath`: its textual form plus the result of Rust's
  `Path::extension()` (an `Option String`), which is standard-library
  behaviour external to this repository.
* Fallible Rust functions returning `Result` become `Except`.
-/

namespace Learngl

/-- Native constant `gl::VERTEX_SHADER` (0x8B31). -/
def GL_VERTEX_SHADER : Nat := 35633

/-- Native constant `gl::FRAGMENT_SHADER` (0x8B30). -/
def GL_FRAGMENT_SHADER : Nat := 35632

/-- Native constant `gl::COMPILE_STATUS` (0x8B81). -/
def GL_COMPILE_STATUS : Nat := 35713

/-- Native constant `gl::LINK_STATUS` (0x8B82). -/
def GL_LINK_STATUS : Nat := 35714

/-- The kind of a `std::io::Error`, restricted to the kinds this code
creates or receives from the filesystem. -/
inductive IOErrorKind
  | invalidInput
  | unsupported
  | notFound
  | other
  deriving DecidableEq, Repr

/-- A `std::io::Error`: a kind plus its message. -/
structure IOError where
  kind : IOErrorKind
  msg : String
  deriving DecidableEq, Repr

/-- The two shader stages, `ShaderType` of `src/shader.rs`. -/
inductive ShaderType
  | VertexShader
  | FragmentShader
  deriving DecidableEq, Repr

/-- A filesystem path: its textual form and the result of Rust's
`Path::extension()` followed by `to_string_lossy`. -/
structure FsPath where
  text : String
  ext : Option String
  deriving DecidableEq, Repr

/-- Embedding of `ShaderType::from_ext` (`src/shader.rs` lines 29-38). -/
def ShaderType.from_ext (ext : String) : Except IOError ShaderType :=
  if ext = "fs" then .ok .FragmentShader
  else if ext = "vs" then .ok .VertexShader
  else .error ⟨.unsupported, "\"" ++ ext ++ "\" extension not supported."⟩

/-- Embedding of `ShaderType::from_path` (`src/shader.rs` lines 19-27):
fails when the path has no extension, otherwise defers to `from_ext`. -/
def ShaderType.from_path (path : FsPath) : Except IOError ShaderType :=
  match path.ext with
  | none => .error ⟨.invalidInput, "No extension found on path."⟩
  | some ext => ShaderType.from_ext ext

/-- Embedding of `impl TryFrom<u32> for ShaderType` (`src/shader.rs`
lines 41-54). -/
def ShaderType.tryFromU32 (value : Nat) : Except IOError ShaderType :=
  if value = GL_VERTEX_SHADER then .ok .VertexShader
  else if value = GL_FRAGMENT_SHADER then .ok .FragmentShader
  else .error ⟨.unsupported, "This type of shader is not supported."⟩

/-- Embedding of `impl From<ShaderType> for u32` (`src/shader.rs`
lines 56-63). -/
def ShaderType.toU32 : ShaderType → Nat
  | .FragmentShader => GL_FRAGMENT_SHADER
  | .VertexShader => GL_VERTEX_SHADER

/-- The kinds of `GLWError` (`src/errors.rs` lines 29-39).  The
`UniformNotFound` constructor is modelled from the spec: `src/shader.rs`
line 113 constructs `GLWErrorKind::UniformNotFound(name)` but the variant's
declaration is missing from `src/errors.rs` as provided; the spec's error
taxonomy lists it as "Uniform not found: a named uniform lookup returned
the not-found sentinel", carrying the queried name. -/
inductive GLWErrorKind
  | IOError (e : IOError)
  | ShaderCompilationFailed (path : Option FsPath)
  | ShaderProgramLinkingFailed
  | CStringNulError
  | UniformNotFound (name : List Nat)
  deriving DecidableEq, Repr

/-- Embedding of `GLWError` (`src/errors.rs` lines 6-11): a kind plus
optional auxiliary info (the diagnostic log, as bytes).  The blanket
`From<T: Into<GLWErrorKind>>` impl constructs it with `info = none`;
`GLWError::new(kind, info)` stores the info given. -/
structure GLWError where
  kind : GLWErrorKind
  info : Option (List Nat)
  deriving DecidableEq, Repr

/-- One call into the OpenGL driver, as recorded in the trace. -/
inductive GLCall
  | createShader (ty : Nat)
  | shaderSource (id : Nat)
  | compileShader (id : Nat)
  | getShaderiv (id pname : Nat)
  | getShaderInfoLog (id : Nat)
  | deleteShader (id : Nat)
  | createProgram
  | attachShader (pid sid : Nat)
  | linkProgram (pid : Nat)
  | getProgramiv (pid pname : Nat)
  | getProgramInfoLog (pid : Nat)
  | getUniformLocation (pid : Nat)
  | useProgram (pid : Nat)
  | deleteProgram (pid : Nat)
  deriving DecidableEq, Repr

/-- The GL context state: a fresh-name counter, the shader objects created
and not yet deleted, and the chronological trace of driver calls. -/
structure GLState where
  nextId : Nat
  liveShaders : List Nat
  trace : List GLCall
  deriving DecidableEq, Repr

/-- Append one driver call to the trace. -/
def GLState.record (s : GLState) (c : GLCall) : GLState :=
  { s with trace := s.trace ++ [c] }

/-- The driver oracle: filesystem reads and the driver's answers to status,
info-log and uniform-location queries, keyed by object name.  Info-log
lengths are the value the driver reports through the `length` out-pointer
(nonnegative, per a conformant driver). -/
structure Driver where
  fsRead : FsPath → Except IOError (List Nat)
  shaderiv : Nat → Nat → Int
  shaderLog : Nat → List Nat
  shaderLogLen : Nat → Nat
  programiv : Nat → Nat → Int
  programLog : Nat → List Nat
  programLogLen : Nat → Nat
  uniformLoc : Nat → List Nat → Int

/-- `gl::CreateShader`: hands out the next object name, marks it live,
records the call. -/
def glCreateShader (ty : ShaderType) (s : GLState) : Nat × GLState :=
  (s.nextId,
    { nextId := s.nextId + 1
      liveShaders := s.liveShaders ++ [s.nextId]
      trace := s.trace ++ [.createShader ty.toU32] })

/-- `gl::DeleteShader`: removes the object from the live set, records the
call. -/
def glDeleteShader (id : Nat) (s : GLState) : GLState :=
  { s with liveShaders := s.liveShaders.erase id
           trace := s.trace ++ [.deleteShader id] }

/-- `gl::CreateProgram`: hands out the next object name, records the
call. -/
def glCreateProgram (s : GLState) : Nat × GLState :=
  (s.nextId,
    { s with nextId := s.nextId + 1
             trace := s.trace ++ [.createProgram] })

/-- Contents of the 512-byte `vec![0; 512]` buffer after the driver's
info-log call wrote `log` into it: at most 511 content bytes are written
(the driver null-terminates within the buffer size), the rest of the
buffer keeps its zero initialisation. -/
def infoLogAfterWrite (log : List Nat) : List Nat :=
  log.take 511 ++ List.replicate (512 - (log.take 511).length) 0

/-- The diagnostic the code extracts for a failed shader: the first
`length`-as-reported bytes of the buffer (`&info_log[..length as usize]`
in `src/utils.rs`). -/
def shaderDiagnostic (d : Driver) (id : Nat) : List Nat :=
  (infoLogAfterWrite (d.shaderLog id)).take (d.shaderLogLen id)

/-- The diagnostic the code extracts for a failed program link. -/
def programDiagnostic (d : Driver) (pid : Nat) : List Nat :=
  (infoLogAfterWrite (d.programLog pid)).take (d.programLogLen pid)

/-- Embedding of `utils::check_shader_succes` (`src/utils.rs` lines 5-22):
query the status; on anything but `gl::TRUE` fetch the info log and return
its first `length` bytes as the error, otherwise return unit. -/
def check_shader_succes (d : Driver) (shader_id pname : Nat) (s : GLState) :
    Except (List Nat) Unit × GLState :=
  let s1 := s.record (.getShaderiv shader_id pname)
  if d.shaderiv shader_id pname ≠ 1 then
    (.error (shaderDiagnostic d shader_id), s1.record (.getShaderInfoLog shader_id))
  else
    (.ok (), s1)

/-- Embedding of `utils::check_program_success` (`src/utils.rs`
lines 26-43). -/
def check_program_success (d : Driver) (pid pname : Nat) (s : GLState) :
    Except (List Nat) Unit × GLState :=
  let s1 := s.record (.getProgramiv pid pname)
  if d.programiv pid pname ≠ 1 then
    (.error (programDiagnostic d pid), s1.record (.getProgramInfoLog pid))
  else
    (.ok (), s1)

/-- Embedding of `CString::new`: fails (with `NulError`) exactly when the
bytes contain an embedded null. -/
def cstringNew (bytes : List Nat) : Except Unit (List Nat) :=
  if bytes.contains 0 then .error () else .ok bytes

/-- A compiled shader unit: `Shader` of `src/shader.rs` lines 65-68. -/
structure Shader where
  shader_id : Nat
  shader_type : ShaderType
  deriving DecidableEq, Repr

/-- Embedding of `Shader::check_succes` (`src/shader.rs` lines 121-128):
wrap a failed compile-status check into `ShaderCompilationFailed` carrying
the given path and the diagnostic as info. -/
def Shader.check_succes (d : Driver) (shader_id : Nat) (path : Option FsPath)
    (s : GLState) : Except GLWError Unit × GLState :=
  match check_shader_succes d shader_id GL_COMPILE_STATUS s with
  | (.ok u, s1) => (.ok u, s1)
  | (.error info, s1) =>
      (.error ⟨.ShaderCompilationFailed path, some info⟩, s1)

/-- Embedding of `Shader::from_str` (`src/shader.rs` lines 71-86): null
check, create, source, compile, status check.  On a failed status check the
error propagates with the raw `u32` handle left as is (no `DeleteShader`
call is made on that path). -/
def Shader.from_str (d : Driver) (source : List Nat) (shader_type : ShaderType)
    (s : GLState) : Except GLWError Shader × GLState :=
  match cstringNew source with
  | .error _ => (.error ⟨.CStringNulError, none⟩, s)
  | .ok _ =>
    let shader_id := (glCreateShader shader_type s).1
    let s1 := (glCreateShader shader_type s).2
    let s2 := s1.record (.shaderSource shader_id)
    let s3 := s2.record (.compileShader shader_id)
    match Shader.check_succes d shader_id none s3 with
    | (.error e, s4) => (.error e, s4)
    | (.ok _, s4) => (.ok ⟨shader_id, shader_type⟩, s4)

/-- Embedding of `Shader::from_path` (`src/shader.rs` lines 88-105): read
the file, null-check its bytes, infer the type from the extension, then the
same driver sequence as `from_str` with the path recorded in any
compilation error. -/
def Shader.from_path (d : Driver) (path : FsPath) (s : GLState) :
    Except GLWError Shader × GLState :=
  match d.fsRead path with
  | .error e => (.error ⟨.IOError e, none⟩, s)
  | .ok bytes =>
    match cstringNew bytes with
    | .error _ => (.error ⟨.CStringNulError, none⟩, s)
    | .ok _ =>
      match ShaderType.from_path path with
      | .error e => (.error ⟨.IOError e, none⟩, s)
      | .ok shader_type =>
        let shader_id := (glCreateShader shader_type s).1
        let s1 := (glCreateShader shader_type s).2
        let s2 := s1.record (.shaderSource shader_id)
        let s3 := s2.record (.compileShader shader_id)
        match Shader.check_succes d shader_id (some path) s3 with
        | (.error e, s4) => (.error e, s4)
        | (.ok _, s4) => (.ok ⟨shader_id, shader_type⟩, s4)

/-- Embedding of `Shader::get_uniform_location` (`src/shader.rs`
lines 107-117): null-check the name, query the location, treat `-1` as
`UniformNotFound` naming the uniform. -/
def Shader.get_uniform_location (d : Driver) (self : Shader) (name : List Nat)
    (s : GLState) : Except GLWError Int × GLState :=
  match cstringNew name with
  | .error _ => (.error ⟨.CStringNulError, none⟩, s)
  | .ok _ =>
    let s1 := s.record (.getUniformLocation self.shader_id)
    let location := d.uniformLoc self.shader_id name
    if location = -1 then
      (.error ⟨.UniformNotFound name, none⟩, s1)
    else
      (.ok location, s1)

/-- A linked program: `ShaderProgram` of `src/shader.rs` lines 139-141. -/
structure ShaderProgram where
  shader_program_id : Nat
  deriving DecidableEq, Repr

/-- The builder (`src/shader.rs` lines 167-170): pending paths and borrowed
shaders, each in the order added. -/
structure ShaderProgramBuilder where
  shader_paths : List FsPath
  shaders : List Shader
  deriving DecidableEq, Repr

/-- `ShaderProgramBuilder::new`. -/
def ShaderProgramBuilder.new : ShaderProgramBuilder := ⟨[], []⟩

/-- `ShaderProgramBuilder::attach_shader_path`: appends the path. -/
def ShaderProgramBuilder.attach_shader_path (b : ShaderProgramBuilder)
    (path : FsPath) : ShaderProgramBuilder :=
  { b with shader_paths := b.shader_paths ++ [path] }

/-- `ShaderProgramBuilder::attach_shader`: appends the borrowed shader. -/
def ShaderProgramBuilder.attach_shader (b : ShaderProgramBuilder)
    (sh : Shader) : ShaderProgramBuilder :=
  { b with shaders := b.shaders ++ [sh] }

/-- Drop a list of owned `Shader` values front to back, as Rust drops the
elements of a `Vec<Shader>`: each drop issues `gl::DeleteShader`. -/
def dropShaders (shs : List Shader) (s : GLState) : GLState :=
  shs.foldl (fun st sh => glDeleteShader sh.shader_id st) s

/-- Worker for the `collect::<Result<Vec<Shader>, _>>` in `build`
(`src/shader.rs` lines 191-195): compile the paths left to right,
short-circuiting on the first failure; on failure the partially collected
vector is dropped (front to back) before the error is returned. -/
def compileAllAux (d : Driver) (paths : List FsPath) (acc : List Shader)
    (s : GLState) : Except GLWError (List Shader) × GLState :=
  match paths with
  | [] => (.ok acc.reverse, s)
  | p :: ps =>
    match Shader.from_path d p s with
    | (.error e, s1) => (.error e, dropShaders acc.reverse s1)
    | (.ok sh, s1) => compileAllAux d ps (sh :: acc) s1

/-- Compile every pending path into an owned shader, or fail with the first
error. -/
def compileAll (d : Driver) (paths : List FsPath) (s : GLState) :
    Except GLWError (List Shader) × GLState :=
  compileAllAux d paths [] s

/-- Embedding of `ShaderProgramBuilder::build` (`src/shader.rs`
lines 190-213): compile the pending paths, create a program, attach the
borrowed shaders then the owned shaders, link, check link status; the owned
shaders are dropped when `build` returns (on the link-failure path and on
the success path alike). -/
def ShaderProgramBuilder.build (d : Driver) (b : ShaderProgramBuilder)
    (s : GLState) : Except GLWError ShaderProgram × GLState :=
  match compileAll d b.shader_paths s with
  | (.error e, s1) => (.error e, s1)
  | (.ok owned_shaders, s1) =>
    let pid := (glCreateProgram s1).1
    let s2 := (glCreateProgram s1).2
    let s3 := (b.shaders ++ owned_shaders).foldl
        (fun st sh => st.record (.attachShader pid sh.shader_id)) s2
    let s4 := s3.record (.linkProgram pid)
    match check_program_success d pid GL_LINK_STATUS s4 with
    | (.error info, s5) =>
        (.error ⟨.ShaderProgramLinkingFailed, some info⟩, dropShaders owned_shaders s5)
    | (.ok _, s5) => (.ok ⟨pid⟩, dropShaders owned_shaders s5)

/-- `ShaderProgram::use_program`: records the activation call. -/
def ShaderProgram.use_program (self : ShaderProgram) (s : GLState) : GLState :=
  s.record (.useProgram self.shader_program_id)

/-- Recognise an `AttachShader` call in a trace. -/
def isAttach : GLCall → Bool
  | .attachShader _ _ => true
  | _ => false

/-- The subsequence of `AttachShader` calls of a trace, in order. -/
def attachCalls (t : List GLCall) : List GLCall := t.filter isAttach

/-! Helper lemmas about the embedding. -/

theorem infoLogAfterWrite_length (log : List Nat) :
    (infoLogAfterWrite log).length = 512 := by
  simp only [infoLogAfterWrite, List.length_append, List.length_replicate,
    List.length_take]
  omega

theorem shaderDiagnostic_length (d : Driver) (id : Nat)
    (h : d.shaderLogLen id ≤ 512) :
    (shaderDiagnostic d id).length = d.shaderLogLen id := by
  simp only [shaderDiagnostic, List.length_take, infoLogAfterWrite_length]
  omega

theorem programDiagnostic_length (d : Driver) (pid : Nat)
    (h : d.programLogLen pid ≤ 512) :
    (programDiagnostic d pid).length = d.programLogLen pid := by
  simp only [programDiagnostic, List.length_take, infoLogAfterWrite_length]
  omega

theorem shaderDiagnostic_ne_nil (d : Driver) (id : Nat)
    (h : 0 < d.shaderLogLen id) : shaderDiagnostic d id ≠ [] := by
  have hl : 0 < (shaderDiagnostic d id).length := by
    simp only [shaderDiagnostic, List.length_take, infoLogAfterWrite_length]
    omega
  exact List.ne_nil_of_length_pos hl

theorem compileAllAux_ok_length (d : Driver) :
    ∀ (paths : List FsPath) (acc : List Shader) (s : GLState)
      (owned : List Shader) (s1 : GLState),
      compileAllAux d paths acc s = (.ok owned, s1) →
      owned.length = paths.length + acc.length := by
  intro paths
  induction paths with
  | nil =>
    intro acc s owned s1 h
    simp only [compileAllAux, Prod.mk.injEq, Except.ok.injEq] at h
    simp [← h.1]
  | cons p ps ih =>
    intro acc s owned s1 h
    simp only [compileAllAux] at h
    split at h
    · simp at h
    · have := ih _ _ _ _ h
      simp only [List.length_cons] at this ⊢
      omega

theorem compileAllAux_ok_shift (d : Driver) :
    ∀ (paths : List FsPath) (acc1 acc2 : List Shader) (s : GLState)
      (owned : List Shader) (s1 : GLState),
      compileAllAux d paths acc1 s = (.ok owned, s1) →
      ∃ core, owned = acc1.reverse ++ core ∧
        compileAllAux d paths acc2 s = (.ok (acc2.reverse ++ core), s1) := by
  intro paths
  induction paths with
  | nil =>
    intro acc1 acc2 s owned s1 h
    simp only [compileAllAux, Prod.mk.injEq, Except.ok.injEq] at h ⊢
    exact ⟨[], by simp [← h.1], by simp, h.2⟩
  | cons p ps ih =>
    intro acc1 acc2 s owned s1 h
    simp only [compileAllAux] at h ⊢
    split at h
    · simp at h
    · rename_i sh st heq
      obtain ⟨core, hcore, hshift⟩ := ih (sh :: acc1) (sh :: acc2) _ _ _ h
      refine ⟨sh :: core, ?_, ?_⟩
      · rw [hcore]; simp
      · rw [hshift]; simp

theorem compileAll_cons_ok (d : Driver) (p : FsPath) (ps : List FsPath)
    (s s1 s2 : GLState) (sh : Shader) (shs : List Shader)
    (h1 : Shader.from_path d p s = (.ok sh, s1))
    (h2 : compileAll d ps s1 = (.ok shs, s2)) :
    compileAll d (p :: ps) s = (.ok (sh :: shs), s2) := by
  simp only [compileAll, compileAllAux] at h2 ⊢
  obtain ⟨core, hcore, hshift⟩ := compileAllAux_ok_shift d ps [] [sh] s1 shs s2 h2
  simp only [List.reverse_nil, List.nil_append] at hcore
  rw [h1]
  show compileAllAux d ps [sh] s1 = (Except.ok (sh :: shs), s2)
  rw [hshift, ← hcore]
  simp

theorem dropShaders_trace (shs : List Shader) :
    ∀ s : GLState, (dropShaders shs s).trace
      = s.trace ++ shs.map (fun sh => GLCall.deleteShader sh.shader_id) := by
  induction shs with
  | nil => intro s; simp [dropShaders]
  | cons sh rest ih =>
    intro s
    simp only [dropShaders, List.foldl_cons, List.map_cons]
    have := ih (glDeleteShader sh.shader_id s)
    simp only [dropShaders] at this
    rw [this]
    simp [glDeleteShader, List.append_assoc]

theorem attachFold_trace (pid : Nat) (l : List Shader) :
    ∀ st : GLState,
      (l.foldl
        (fun st sh =>
          { st with trace := st.trace ++ [GLCall.attachShader pid sh.shader_id] })
        st).trace
        = st.trace ++ l.map (fun sh => GLCall.attachShader pid sh.shader_id) := by
  induction l with
  | nil => intro st; simp
  | cons sh rest ih =>
    intro st
    simp only [List.foldl_cons, List.map_cons]
    rw [ih]
    simp [List.append_assoc]

theorem filter_attach_map (pid : Nat) (l : List Shader) :
    List.filter isAttach (l.map (fun sh => GLCall.attachShader pid sh.shader_id))
      = l.map (fun sh => GLCall.attachShader pid sh.shader_id) := by
  induction l with
  | nil => rfl
  | cons sh rest ih =>
    simp only [List.map_cons, List.filter_cons] at ih ⊢
    simp [isAttach, ih]

theorem filter_delete_map (l : List Shader) :
    List.filter isAttach (l.map (fun sh => GLCall.deleteShader sh.shader_id))
      = [] := by
  induction l with
  | nil => rfl
  | cons sh rest ih =>
    simp only [List.map_cons, List.filter_cons] at ih ⊢
    simp [isAttach, ih]

/-! Concrete fixtures: a fresh GL state, small sources and paths, and
driver oracles exercising each outcome. -/

/-- A fresh GL state: names start at 1 (GL object names are nonzero). -/
def st0 : GLState := ⟨1, [], []⟩

/-- A small source with no embedded null: the bytes of `"no"`. -/
def srcPlain : List Nat := [110, 111]

/-- A source with an embedded null byte. -/
def srcNul : List Nat := [110, 0, 111]

/-- A path with the `vs` extension. -/
def pathVs : FsPath := ⟨"shaders/shader.vs", some "vs"⟩

/-- A path with an unsupported extension. -/
def pathTxt : FsPath := ⟨"shaders/shader.txt", some "txt"⟩

/-- A driver whose compile-status query reports failure (status 0) with a
three-byte diagnostic log, and whose uniform query reports the not-found
sentinel. -/
def drvCompileFail : Driver :=
  { fsRead := fun _ => .ok srcPlain
    shaderiv := fun _ _ => 0
    shaderLog := fun _ => [101, 114, 114]
    shaderLogLen := fun _ => 3
    programiv := fun _ _ => 1
    programLog := fun _ => []
    programLogLen := fun _ => 0
    uniformLoc := fun _ _ => -1 }

/-- A driver for which every compilation succeeds but linking fails with
the log bytes of `"LOG"`. -/
def drvLinkFail : Driver :=
  { fsRead := fun _ => .ok srcPlain
    shaderiv := fun _ _ => 1
    shaderLog := fun _ => []
    shaderLogLen := fun _ => 0
    programiv := fun _ _ => 0
    programLog := fun _ => [76, 79, 71]
    programLogLen := fun _ => 3
    uniformLoc := fun _ _ => 0 }

/-- A driver for which everything succeeds. -/
def drvAllOk : Driver :=
  { fsRead := fun _ => .ok srcPlain
    shaderiv := fun _ _ => 1
    shaderLog := fun _ => []
    shaderLogLen := fun _ => 0
    programiv := fun _ _ => 1
    programLog := fun _ => []
    programLogLen := fun _ => 0
    uniformLoc := fun _ _ => 0 }

/-- A driver whose file reads yield bytes with an embedded null. -/
def drvNulFile : Driver :=
  { fsRead := fun _ => .ok srcNul
    shaderiv := fun _ _ => 1
    shaderLog := fun _ => []
    shaderLogLen := fun _ => 0
    programiv := fun _ _ => 1
    programLog := fun _ => []
    programLogLen := fun _ => 0
    uniformLoc := fun _ _ => 0 }

/-- A driver whose file reads fail. -/
def drvReadFail : Driver :=
  { fsRead := fun _ => .error ⟨.notFound, "No such file"⟩
    shaderiv := fun _ _ => 1
    shaderLog := fun _ => []
    shaderLogLen := fun _ => 0
    programiv := fun _ _ => 1
    programLog := fun _ => []
    programLogLen := fun _ => 0
    uniformLoc := fun _ _ => 0 }

/-- The GL state after successfully compiling `pathVs` from `st0`: shader
name 1 created and live, four driver calls traced. -/
def stAfterVs : GLState :=
  ⟨2, [1],
    [.createShader 35633, .shaderSource 1, .compileShader 1, .getShaderiv 1 35713]⟩

/-- A builder holding one pending path and no borrowed shaders. -/
def bOnePath : ShaderProgramBuilder := ⟨[pathVs], []⟩

/-- A builder holding one pending path and one borrowed shader (name 9). -/
def bMixed : ShaderProgramBuilder := ⟨[pathVs], [⟨9, .VertexShader⟩]⟩

/-! Claims. -/

/-- Claim C2 (code bug): for every shader handle allocated during
construction, the claim says that when the compile-status check fails the
newly created shader unit is deleted via the driver before the error is
reported.  The code does the opposite: on the failure path of
`Shader::from_str` / `Shader::from_path` the raw `u32` handle escapes the
`?` early return before any `Shader` value (whose `Drop` would call
`gl::DeleteShader`) is constructed, so the unit stays live and no
`DeleteShader` call ever appears in the trace. -/
theorem from_str_compile_failure_leaks_handle :
    (Shader.from_str drvCompileFail srcPlain .VertexShader st0).1
        = .error ⟨.ShaderCompilationFailed none, some [101, 114, 114]⟩
    ∧ (Shader.from_str drvCompileFail srcPlain .VertexShader st0).2.liveShaders = [1]
    ∧ GLCall.deleteShader 1 ∉
        (Shader.from_str drvCompileFail srcPlain .VertexShader st0).2.trace
    ∧ (Shader.from_path drvCompileFail pathVs st0).2.liveShaders = [1]
    ∧ GLCall.deleteShader 1 ∉
        (Shader.from_path drvCompileFail pathVs st0).2.trace :=
  ⟨rfl, rfl, by decide, rfl, by decide⟩

/-- Claim C3: for every shader source whose compilation fails, construction
fails with a compilation-failure error whose auxiliary info is the driver's
diagnostic log (non-empty when the driver reports a positive log length)
and whose path field is `none` for `from_str` and the source path for
`from_path`. -/
theorem compile_failure_error_shape (d : Driver) (src bytes : List Nat)
    (ty t : ShaderType) (p : FsPath) (s : GLState)
    (hsrc : src.contains 0 = false)
    (hbytes : bytes.contains 0 = false)
    (hread : d.fsRead p = .ok bytes)
    (hext : ShaderType.from_path p = .ok t)
    (hfail : d.shaderiv s.nextId GL_COMPILE_STATUS ≠ 1)
    (hlog : 0 < d.shaderLogLen s.nextId) :
    (Shader.from_str d src ty s).1
        = .error ⟨.ShaderCompilationFailed none, some (shaderDiagnostic d s.nextId)⟩
    ∧ (Shader.from_path d p s).1
        = .error ⟨.ShaderCompilationFailed (some p), some (shaderDiagnostic d s.nextId)⟩
    ∧ shaderDiagnostic d s.nextId ≠ [] := by
  have hsrc2 : (0 : Nat) ∉ src := by simpa using hsrc
  have hbytes2 : (0 : Nat) ∉ bytes := by simpa using hbytes
  refine ⟨?_, ?_, shaderDiagnostic_ne_nil d s.nextId hlog⟩
  · simp [Shader.from_str, cstringNew, hsrc2, Shader.check_succes,
      check_shader_succes, glCreateShader, GLState.record, hfail]
  · simp [Shader.from_path, hread, cstringNew, hbytes2, hext, Shader.check_succes,
      check_shader_succes, glCreateShader, GLState.record, hfail]

/-- Witness for claim C3 at a concrete driver, source and path. -/
theorem compile_failure_error_shape_witness :
    0 < drvCompileFail.shaderLogLen st0.nextId
    ∧ (Shader.from_str drvCompileFail srcPlain .FragmentShader st0).1
        = .error ⟨.ShaderCompilationFailed none, some [101, 114, 114]⟩
    ∧ (Shader.from_path drvCompileFail pathVs st0).1
        = .error ⟨.ShaderCompilationFailed (some pathVs), some [101, 114, 114]⟩ :=
  ⟨by decide,
    (compile_failure_error_shape drvCompileFail srcPlain srcPlain .FragmentShader
      .VertexShader pathVs st0 (by decide) (by decide) rfl rfl (by decide)
      (by decide)).1,
    (compile_failure_error_shape drvCompileFail srcPlain srcPlain .FragmentShader
      .VertexShader pathVs st0 (by decide) (by decide) rfl rfl (by decide)
      (by decide)).2.1⟩

/-- Claim C5: a source byte sequence containing an embedded null makes
both constructors fail with the encoding error, with the GL state returned
untouched: no driver call (no shader-unit creation, source upload or
compile) is issued. -/
theorem nul_source_rejected_before_driver (d : Driver) (src bytes : List Nat)
    (ty : ShaderType) (p : FsPath) (s : GLState)
    (hsrc : src.contains 0 = true)
    (hread : d.fsRead p = .ok bytes)
    (hbytes : bytes.contains 0 = true) :
    Shader.from_str d src ty s = (.error ⟨.CStringNulError, none⟩, s)
    ∧ Shader.from_path d p s = (.error ⟨.CStringNulError, none⟩, s) := by
  have hsrc2 : (0 : Nat) ∈ src := by simpa using hsrc
  have hbytes2 : (0 : Nat) ∈ bytes := by simpa using hbytes
  constructor
  · simp [Shader.from_str, cstringNew, hsrc2]
  · simp [Shader.from_path, hread, cstringNew, hbytes2]

/-- Witness for claim C5 at a concrete null-containing source. -/
theorem nul_source_rejected_before_driver_witness :
    srcNul.contains 0 = true
    ∧ Shader.from_str drvNulFile srcNul .VertexShader st0
        = (.error ⟨.CStringNulError, none⟩, st0)
    ∧ Shader.from_path drvNulFile pathVs st0
        = (.error ⟨.CStringNulError, none⟩, st0) :=
  ⟨by decide,
    (nul_source_rejected_before_driver drvNulFile srcNul srcNul .VertexShader
      pathVs st0 (by decide) rfl (by decide)).1,
    (nul_source_rejected_before_driver drvNulFile srcNul srcNul .VertexShader
      pathVs st0 (by decide) rfl (by decide)).2⟩

/-- Claim C6: extension inference maps `vs` to Vertex and `fs` to Fragment;
any other extension, and a path without extension, is an error; and in
`Shader::from_path` an inference failure surfaces with the GL state
untouched (no driver call, hence no compilation attempt). -/
theorem extension_inference_contract (d : Driver) (p : FsPath)
    (bytes : List Nat) (s : GLState) :
    ShaderType.from_ext "vs" = .ok .VertexShader
    ∧ ShaderType.from_ext "fs" = .ok .FragmentShader
    ∧ (∀ e : String, e ≠ "vs" → e ≠ "fs" →
        ShaderType.from_ext e =
          .error ⟨.unsupported, "\"" ++ e ++ "\" extension not supported."⟩)
    ∧ (p.ext = none →
        ShaderType.from_path p
          = .error ⟨.invalidInput, "No extension found on path."⟩)
    ∧ (∀ err : IOError, d.fsRead p = .ok bytes → bytes.contains 0 = false →
        ShaderType.from_path p = .error err →
        Shader.from_path d p s = (.error ⟨.IOError err, none⟩, s)) := by
  refine ⟨rfl, rfl, ?_, ?_, ?_⟩
  · intro e h1 h2
    simp [ShaderType.from_ext, h1, h2]
  · intro h
    simp [ShaderType.from_path, h]
  · intro err hread hb hfail
    have hb2 : (0 : Nat) ∉ bytes := by simpa using hb
    simp [Shader.from_path, hread, cstringNew, hb2, hfail]

/-- Witness for claim C6 at the concrete extension `txt`. -/
theorem extension_inference_contract_witness :
    ShaderType.from_ext "txt"
        = .error ⟨.unsupported, "\"txt\" extension not supported."⟩
    ∧ Shader.from_path drvAllOk pathTxt st0
        = (.error ⟨.IOError ⟨.unsupported, "\"txt\" extension not supported."⟩,
            none⟩, st0) :=
  ⟨(extension_inference_contract drvAllOk pathTxt srcPlain st0).2.2.1 "txt"
      (by decide) (by decide),
    (extension_inference_contract drvAllOk pathTxt srcPlain st0).2.2.2.2
      ⟨.unsupported, "\"txt\" extension not supported."⟩ rfl (by decide) rfl⟩

/-- Claim C7: `ShaderType` and the native shader-stage identifier
round-trip bidirectionally, and every unrecognized native id makes the
conversion fail. -/
theorem shader_type_u32_roundtrip :
    (∀ t : ShaderType, ShaderType.tryFromU32 t.toU32 = .ok t)
    ∧ ShaderType.VertexShader.toU32 = GL_VERTEX_SHADER
    ∧ ShaderType.FragmentShader.toU32 = GL_FRAGMENT_SHADER
    ∧ ShaderType.tryFromU32 GL_VERTEX_SHADER = .ok .VertexShader
    ∧ ShaderType.tryFromU32 GL_FRAGMENT_SHADER = .ok .FragmentShader
    ∧ (∀ n : Nat, n ≠ GL_VERTEX_SHADER → n ≠ GL_FRAGMENT_SHADER →
        ShaderType.tryFromU32 n
          = .error ⟨.unsupported, "This type of shader is not supported."⟩) := by
  refine ⟨?_, rfl, rfl, rfl, rfl, ?_⟩
  · intro t
    cases t <;> rfl
  · intro n h1 h2
    simp [ShaderType.tryFromU32, h1, h2]

/-- Witness for claim C7 at the concrete native ids 35633 and 0. -/
theorem shader_type_u32_roundtrip_witness :
    ShaderType.tryFromU32 (ShaderType.VertexShader.toU32) = .ok .VertexShader
    ∧ ShaderType.tryFromU32 0
        = .error ⟨.unsupported, "This type of shader is not supported."⟩ :=
  ⟨shader_type_u32_roundtrip.1 .VertexShader,
    shader_type_u32_roundtrip.2.2.2.2.2 0 (by decide) (by decide)⟩

/-- Claim C8: the status-check utilities return unit when the driver
reports success, and on failure a diagnostic whose length is exactly the
length the driver's info-log query reported (no trailing null padding from
the 512-byte buffer), for a conformant driver whose reported length fits
the buffer. -/
theorem status_check_contract (d : Driver) (id pid pname : Nat) (s : GLState)
    (hs : d.shaderLogLen id ≤ 512) (hp : d.programLogLen pid ≤ 512) :
    (d.shaderiv id pname = 1 → (check_shader_succes d id pname s).1 = .ok ())
    ∧ (d.shaderiv id pname ≠ 1 →
        (check_shader_succes d id pname s).1 = .error (shaderDiagnostic d id)
        ∧ (shaderDiagnostic d id).length = d.shaderLogLen id)
    ∧ (d.programiv pid pname = 1 →
        (check_program_success d pid pname s).1 = .ok ())
    ∧ (d.programiv pid pname ≠ 1 →
        (check_program_success d pid pname s).1 = .error (programDiagnostic d pid)
        ∧ (programDiagnostic d pid).length = d.programLogLen pid) := by
  refine ⟨?_, ?_, ?_, ?_⟩
  · intro h
    simp [check_shader_succes, h]
  · intro h
    exact ⟨by simp [check_shader_succes, h], shaderDiagnostic_length d id hs⟩
  · intro h
    simp [check_program_success, h]
  · intro h
    exact ⟨by simp [check_program_success, h], programDiagnostic_length d pid hp⟩

/-- Witness for claim C8 at a concrete failing shader check and a concrete
succeeding program check. -/
theorem status_check_contract_witness :
    drvCompileFail.shaderLogLen 1 ≤ 512
    ∧ (check_shader_succes drvCompileFail 1 GL_COMPILE_STATUS st0).1
        = .error [101, 114, 114]
    ∧ ([101, 114, 114] : List Nat).length = 3
    ∧ (check_program_success drvCompileFail 1 GL_LINK_STATUS st0).1 = .ok () :=
  ⟨by decide,
    ((status_check_contract drvCompileFail 1 1 GL_COMPILE_STATUS st0 (by decide)
      (by decide)).2.1 (by decide)).1,
    ((status_check_contract drvCompileFail 1 1 GL_COMPILE_STATUS st0 (by decide)
      (by decide)).2.1 (by decide)).2,
    (status_check_contract drvCompileFail 1 1 GL_LINK_STATUS st0 (by decide)
      (by decide)).2.2.1 (by decide)⟩

/-- Claim C9: `get_uniform_location` rejects a name with an embedded null
before any driver call (state untouched); when the driver reports the
sentinel `-1` it fails with the uniform-not-found error naming the queried
uniform; otherwise it returns the queried location. -/
theorem get_uniform_location_contract (d : Driver) (sh : Shader)
    (name : List Nat) (s : GLState) :
    (name.contains 0 = true →
        Shader.get_uniform_location d sh name s
          = (.error ⟨.CStringNulError, none⟩, s))
    ∧ (name.contains 0 = false → d.uniformLoc sh.shader_id name = -1 →
        (Shader.get_uniform_location d sh name s).1
          = .error ⟨.UniformNotFound name, none⟩)
    ∧ (name.contains 0 = false → d.uniformLoc sh.shader_id name ≠ -1 →
        (Shader.get_uniform_location d sh name s).1
          = .ok (d.uniformLoc sh.shader_id name)) := by
  refine ⟨?_, ?_, ?_⟩
  · intro h
    have h2 : (0 : Nat) ∈ name := by simpa using h
    simp [Shader.get_uniform_location, cstringNew, h2]
  · intro h hloc
    have h2 : (0 : Nat) ∉ name := by simpa using h
    simp [Shader.get_uniform_location, cstringNew, h2, hloc]
  · intro h hloc
    have h2 : (0 : Nat) ∉ name := by simpa using h
    simp [Shader.get_uniform_location, cstringNew, h2, hloc]

/-- Witness for claim C9 at a concrete null-containing name and a concrete
not-found lookup. -/
theorem get_uniform_location_contract_witness :
    (([0] : List Nat).contains 0 = true
      ∧ Shader.get_uniform_location drvAllOk ⟨1, .VertexShader⟩ [0] st0
          = (.error ⟨.CStringNulError, none⟩, st0))
    ∧ (Shader.get_uniform_location drvCompileFail ⟨1, .VertexShader⟩ [117] st0).1
        = .error ⟨.UniformNotFound [117], none⟩
    ∧ (Shader.get_uniform_location drvAllOk ⟨1, .VertexShader⟩ [117] st0).1
        = .ok 0 :=
  ⟨⟨by decide,
      (get_uniform_location_contract drvAllOk ⟨1, .VertexShader⟩ [0] st0).1
        (by decide)⟩,
    (get_uniform_location_contract drvCompileFail ⟨1, .VertexShader⟩ [117] st0).2.1
      (by decide) (by decide),
    (get_uniform_location_contract drvAllOk ⟨1, .VertexShader⟩ [117] st0).2.2
      (by decide) (by decide)⟩

/-- Claim C10: in `Shader::from_path` the file read and the null-byte check
both precede extension-based type inference, so on a path whose extension
inference fails, an unreadable file yields the I/O error and a readable
file with an embedded null yields the encoding error — in both cases with
the GL state untouched. -/
theorem from_path_read_before_extension (d : Driver) (p : FsPath)
    (bytes : List Nat) (s : GLState) (ioerr extErr : IOError)
    (_hext : ShaderType.from_path p = .error extErr) :
    (d.fsRead p = .error ioerr →
        Shader.from_path d p s = (.error ⟨.IOError ioerr, none⟩, s))
    ∧ (d.fsRead p = .ok bytes → bytes.contains 0 = true →
        Shader.from_path d p s = (.error ⟨.CStringNulError, none⟩, s)) := by
  constructor
  · intro h
    simp [Shader.from_path, h]
  · intro h hb
    have hb2 : (0 : Nat) ∈ bytes := by simpa using hb
    simp [Shader.from_path, h, cstringNew, hb2]

/-- Witness for claim C10 at the concrete unsupported-extension path with a
failing read and with a null-containing file. -/
theorem from_path_read_before_extension_witness :
    Shader.from_path drvReadFail pathTxt st0
        = (.error ⟨.IOError ⟨.notFound, "No such file"⟩, none⟩, st0)
    ∧ Shader.from_path drvNulFile pathTxt st0
        = (.error ⟨.CStringNulError, none⟩, st0) :=
  ⟨(from_path_read_before_extension drvReadFail pathTxt srcPlain st0
      ⟨.notFound, "No such file"⟩
      ⟨.unsupported, "\"txt\" extension not supported."⟩ rfl).1 rfl,
    (from_path_read_before_extension drvNulFile pathTxt srcNul st0
      ⟨.notFound, "No such file"⟩
      ⟨.unsupported, "\"txt\" extension not supported."⟩ rfl).2 rfl (by decide)⟩

/-- Claim C1: `build` compiles every pending path into an owned shader
(on success the owned list has one shader per path), a failure on a path
short-circuits every remaining path (the result is exactly that failure,
no partial aggregation), a compilation failure propagates out of `build`
unchanged, a link failure yields the program-linking-failed error carrying
the driver's diagnostic log, and a `ShaderProgram` is returned only when
the link-status check passes. -/
theorem build_contract (d : Driver) (b : ShaderProgramBuilder) (s : GLState) :
    (∀ owned s1, compileAll d b.shader_paths s = (.ok owned, s1) →
        owned.length = b.shader_paths.length)
    ∧ (∀ (t : GLState) (acc : List Shader) (p : FsPath) (ps : List FsPath)
        (e : GLWError) (t1 : GLState),
        Shader.from_path d p t = (.error e, t1) →
        compileAllAux d (p :: ps) acc t = (.error e, dropShaders acc.reverse t1))
    ∧ (∀ e s1, compileAll d b.shader_paths s = (.error e, s1) →
        ShaderProgramBuilder.build d b s = (.error e, s1))
    ∧ (∀ owned s1, compileAll d b.shader_paths s = (.ok owned, s1) →
        d.programiv s1.nextId GL_LINK_STATUS ≠ 1 →
        (ShaderProgramBuilder.build d b s).1
          = .error ⟨.ShaderProgramLinkingFailed,
              some (programDiagnostic d s1.nextId)⟩)
    ∧ (∀ prog s2, ShaderProgramBuilder.build d b s = (.ok prog, s2) →
        d.programiv prog.shader_program_id GL_LINK_STATUS = 1) := by
  refine ⟨?_, ?_, ?_, ?_, ?_⟩
  · intro owned s1 h
    have := compileAllAux_ok_length d b.shader_paths [] s owned s1 h
    simpa using this
  · intro t acc p ps e t1 h
    simp only [compileAllAux]
    rw [h]
  · intro e s1 h
    simp only [ShaderProgramBuilder.build]
    rw [h]
  · intro owned s1 h hlink
    simp only [ShaderProgramBuilder.build]
    rw [h]
    simp [check_program_success, glCreateProgram, GLState.record, hlink]
  · intro prog s2 h
    rcases hc : compileAll d b.shader_paths s with ⟨res, s1⟩
    cases res with
    | error e =>
      simp only [ShaderProgramBuilder.build, hc] at h
      simp at h
    | ok owned =>
      simp only [ShaderProgramBuilder.build, hc] at h
      by_cases hl : d.programiv s1.nextId GL_LINK_STATUS = 1
      · simp only [check_program_success, glCreateProgram, GLState.record,
          hl, ne_eq, not_true_eq_false, if_false, ite_false] at h
        simp only [Prod.mk.injEq, Except.ok.injEq] at h
        rw [← h.1]
        exact hl
      · simp [check_program_success, glCreateProgram, GLState.record, hl] at h

/-- Witness for claim C1: a one-path builder against a driver whose link
check fails produces the linking-failed error with the driver's log. -/
theorem build_contract_witness :
    drvLinkFail.programiv stAfterVs.nextId GL_LINK_STATUS ≠ 1
    ∧ (ShaderProgramBuilder.build drvLinkFail bOnePath st0).1
        = .error ⟨.ShaderProgramLinkingFailed, some [76, 79, 71]⟩ :=
  ⟨by decide,
    (build_contract drvLinkFail bOnePath st0).2.2.2.1 [⟨1, .VertexShader⟩]
      stAfterVs rfl (by decide)⟩

/-- Claim C4: in `build`, the `AttachShader` calls issued are exactly the
borrowed shaders first, then the path-compiled shaders, each group in the
order it was added; the attach operations append (preserving order of
addition) and path compilation preserves the order of the pending paths. -/
theorem build_attach_order (d : Driver) (b : ShaderProgramBuilder)
    (s s1 : GLState) (owned : List Shader)
    (h : compileAll d b.shader_paths s = (.ok owned, s1)) :
    attachCalls (ShaderProgramBuilder.build d b s).2.trace
      = attachCalls s1.trace
        ++ (b.shaders ++ owned).map
            (fun sh => GLCall.attachShader s1.nextId sh.shader_id)
    ∧ (∀ bb p, (ShaderProgramBuilder.attach_shader_path bb p).shader_paths
          = bb.shader_paths ++ [p]
        ∧ (ShaderProgramBuilder.attach_shader_path bb p).shaders = bb.shaders)
    ∧ (∀ bb sh, (ShaderProgramBuilder.attach_shader bb sh).shaders
          = bb.shaders ++ [sh]
        ∧ (ShaderProgramBuilder.attach_shader bb sh).shader_paths
          = bb.shader_paths)
    ∧ (∀ (t t1 t2 : GLState) (p : FsPath) (ps : List FsPath) (sh : Shader)
        (shs : List Shader),
        Shader.from_path d p t = (.ok sh, t1) →
        compileAll d ps t1 = (.ok shs, t2) →
        compileAll d (p :: ps) t = (.ok (sh :: shs), t2)) := by
  refine ⟨?_, ?_, ?_, ?_⟩
  · simp only [ShaderProgramBuilder.build]
    rw [h]
    by_cases hl : d.programiv s1.nextId GL_LINK_STATUS = 1 <;>
      simp [attachCalls, check_program_success, glCreateProgram, GLState.record,
        hl, dropShaders_trace, attachFold_trace, List.filter_append,
        filter_attach_map, filter_delete_map, isAttach, List.append_assoc]
  · intro bb p
    exact ⟨rfl, rfl⟩
  · intro bb sh
    exact ⟨rfl, rfl⟩
  · intro t t1 t2 p ps sh shs h1 h2
    exact compileAll_cons_ok d p ps t t1 t2 sh shs h1 h2

/-- Witness for claim C4: a builder with one borrowed shader (name 9) and
one pending path; the attach calls are the borrowed shader first, then the
newly compiled shader (name 1), both attached to program 2. -/
theorem build_attach_order_witness :
    attachCalls (ShaderProgramBuilder.build drvAllOk bMixed st0).2.trace
      = [GLCall.attachShader 2 9, GLCall.attachShader 2 1] := by
  have h := (build_attach_order drvAllOk bMixed st0 stAfterVs
    [⟨1, .VertexShader⟩] rfl).1
  exact h.trans (by decide)

end Learngl
